import Mathlib

/-!
# Verification of pyCRUMBS message framing and transport

Shallow embedding, in Lean 4, of the FEASTorg/pyCRUMBS sources.  The
repository carries two copies of each protocol module:

* `src/pyCRUMBS/CRUMBSMessage.py` — the packaged message model: 7 floats,
  a `crc8` byte, declared message size 31 (namespace `PkgMsg` below);
* `src/pyCRUMBS/CRUMBS.py` — the packaged codec/transport, still written
  for the legacy 27-byte frame: format `<BB6fB`, 6 floats, an
  `errorFlags` byte, message size constant 27 (namespace `PkgBus`);
* `CRUMBSMessage.py` at repository root — the legacy message model with
  `errorFlags` (namespace `RootMsg`);
* `CRUMBS.py` at repository root — the legacy codec/transport for that
  model (namespace `RootBus`).

Python values are embedded as follows: Python `int` is `Int`; a Python
`float` is carried by `PyFloat`, which records the IEEE-754 binary32
image that `struct.pack("<f", x)` yields for it together with the flag
saying whether that pack call instead raises `OverflowError` (a finite
double beyond binary32 range); `bytes` are `List Nat` with entries below
256; Python exceptions that escape the embedded functions are the
`Except … ` error side, with the raised exception as a `PyExc`.
The bus driver (smbus2) is the mock the spec's testable properties call
for: every transaction an operation delivers to it is recorded as a
`BusOp`, reads return zero-filled buffers, and nothing raises.
-/

/-- A Python `float` value, seen through the only lens the embedded code
applies to one: `bits` is the IEEE-754 binary32 bit pattern that
`struct.pack("<f", ·)` produces for it, and `overflows` is `true` exactly
when that call raises `OverflowError` instead (a finite double whose
magnitude exceeds binary32 range), in which case `bits` is unused. -/
structure PyFloat where
  bits : Nat
  overflows : Bool
deriving DecidableEq

/-- The Python literal `0.0` (binary32 image `0x00000000`; packs fine). -/
def PyFloat.zero : PyFloat := ⟨0, false⟩

/-- Exceptions the embedded Python code raises and does not catch. -/
inductive PyExc where
  | attributeError (attr : String)
  | typeError (msg : String)
  | overflowError (msg : String)
deriving DecidableEq

/-- What a failing `struct.pack` call raises: `struct.error` (wrong item
count, `B` argument out of `0–255`) or `OverflowError` (a float too large
for the `f` format).  Only `struct.error` is caught by the sources'
`except struct.error` handlers. -/
inductive PackExc where
  | structError
  | overflowError
deriving DecidableEq

/-- One raw transaction delivered to the (mock) bus driver. -/
inductive BusOp where
  | write (address : Int) (data : List Nat)
  | read (address : Int) (length : Nat)
  | closeHandle
deriving DecidableEq

/-- `struct.pack("B", v)` item conversion: `struct.error` unless
`0 ≤ v ≤ 255`. -/
def packB (v : Int) : Option Nat :=
  if 0 ≤ v ∧ v ≤ 255 then some v.toNat else none

/-- `struct.pack("<f", x)` item conversion: the 4 little-endian bytes of
the binary32 image, or `OverflowError` for a float too large for the `f`
format. -/
def packF32LE (x : PyFloat) : Except PackExc (List Nat) :=
  if x.overflows then Except.error PackExc.overflowError
  else Except.ok
    [x.bits % 256, x.bits / 256 % 256, x.bits / 65536 % 256, x.bits / 16777216 % 256]

/-- The `6f` run of `struct.pack("<BB6fB", …)`: floats are converted in
argument order, and the first failing conversion raises. -/
def packFloats (data : List PyFloat) : Except PackExc (List Nat) :=
  match data with
  | [] => Except.ok []
  | x :: xs =>
    match packF32LE x with
    | Except.error e => Except.error e
    | Except.ok bs =>
      match packFloats xs with
      | Except.error e => Except.error e
      | Except.ok rest => Except.ok (bs ++ rest)

/-- `struct.pack("<BB6fB", t, c, *data, e)`.  The item count is checked
first (`struct.error` unless `data` supplies exactly 6 floats, making
9 items); then the items are converted left to right: `B` out of range is
`struct.error`, a float beyond binary32 range is `OverflowError`. -/
def structPack_BB6fB (t c : Int) (data : List PyFloat) (e : Int) :
    Except PackExc (List Nat) :=
  if data.length = 6 then
    match packB t with
    | none => Except.error PackExc.structError
    | some tb =>
      match packB c with
      | none => Except.error PackExc.structError
      | some cb =>
        match packFloats data with
        | Except.error ex => Except.error ex
        | Except.ok fb =>
          match packB e with
          | none => Except.error PackExc.structError
          | some eb => Except.ok (tb :: cb :: (fb ++ [eb]))
  else Except.error PackExc.structError

namespace PkgMsg

/-! ## `src/pyCRUMBS/CRUMBSMessage.py` — the packaged message model -/

/-- `CRUMBS_DATA_LENGTH` (line 6). -/
def CRUMBS_DATA_LENGTH : Nat := 7

/-- `CRUMBS_MESSAGE_SIZE` (line 7): `31  # 1 + 1 + (7*4) + 1`. -/
def CRUMBS_MESSAGE_SIZE : Nat := 31

/-- The `CRUMBSMessage` dataclass (lines 10–34): `typeID`,
`commandType`, `data` (list of floats) and `crc8`.  There is no
`errorFlags` field in this model. -/
structure CRUMBSMessage where
  typeID : Int
  commandType : Int
  data : List PyFloat
  crc8 : Int
deriving DecidableEq

/-- The attribute names the packaged `CRUMBSMessage` dataclass declares;
Python attribute lookup `message.a` raises `AttributeError` for any `a`
outside this list. -/
def CRUMBSMessage.attrs : List String := ["typeID", "commandType", "data", "crc8"]

/-- Constructing a `CRUMBSMessage(typeID=…, commandType=…, data=…,
crc8=…)`: the dataclass `__init__` assigns the fields, then
`__post_init__` (lines 26–34) normalizes `data` — a list shorter than 7
is extended with `0.0`, a longer one is cut to its first 7 entries — and
masks `crc8` with `&= 0xFF`.  No branch raises. -/
def CRUMBSMessage.make (typeID commandType : Int) (data : List PyFloat)
    (crc8 : Int) : CRUMBSMessage :=
  let data' :=
    if data.length ≠ CRUMBS_DATA_LENGTH then
      if data.length < CRUMBS_DATA_LENGTH then
        data ++ List.replicate (CRUMBS_DATA_LENGTH - data.length) PyFloat.zero
      else
        data.take CRUMBS_DATA_LENGTH
    else data
  { typeID := typeID, commandType := commandType, data := data',
    crc8 := Int.land crc8 255 }

end PkgMsg

namespace PkgBus

/-! ## `src/pyCRUMBS/CRUMBS.py` — the packaged codec and transport

This module imports the packaged `CRUMBSMessage` (`PkgMsg.CRUMBSMessage`)
but its codec was not updated with it: it still packs the legacy 27-byte
`<BB6fB` layout around an `errorFlags` byte. -/

/-- `CRUMBS_MESSAGE_SIZE` (line 12): `27  # 1 + 1 + (6 * 4) + 1` — it
contradicts the 31 declared by `src/pyCRUMBS/CRUMBSMessage.py`. -/
def CRUMBS_MESSAGE_SIZE : Nat := 27

/-- The `CRUMBS` transport: `bus_number`, and `bus`, which is Python
`None` until `begin()` succeeds and the opened `SMBus` handle after. -/
structure CRUMBS where
  bus_number : Int
  bus : Option Unit
deriving DecidableEq

/-- `CRUMBS.__init__` (lines 20–26): stores the bus number, `bus = None`. -/
def CRUMBS.construct (bus_number : Int) : CRUMBS :=
  { bus_number := bus_number, bus := none }

/-- `begin` (lines 28–33): opens the bus, `self.bus = SMBus(...)` (the
mock driver's open always succeeds). -/
def CRUMBS.begin (self : CRUMBS) : CRUMBS :=
  { self with bus := some () }

/-- `encode_message` (lines 35–54).  The body is
`struct.pack("<BB6fB", message.typeID, message.commandType,
*message.data, message.errorFlags)` inside `try … except struct.error:
return bytes()`.  Python evaluates the arguments before the pack starts,
and `message.errorFlags` is an attribute lookup on the packaged
`CRUMBSMessage`, whose declared attributes are
`PkgMsg.CRUMBSMessage.attrs`; the lookup raises
`AttributeError("errorFlags")`, which `except struct.error` does not
catch, so the exception escapes the method.  (Were the attribute
declared, the pack itself would still be the legacy one, handing
`message.data`'s 7 floats to a `6f` format.) -/
def encode_message (message : PkgMsg.CRUMBSMessage) : Except PyExc (List Nat) :=
  if PkgMsg.CRUMBSMessage.attrs.contains "errorFlags" then
    -- not reached: the dataclass declares no `errorFlags` to read
    match structPack_BB6fB message.typeID message.commandType message.data 0 with
    | Except.ok encoded => Except.ok encoded
    | Except.error PackExc.structError => Except.ok []
    | Except.error PackExc.overflowError =>
        Except.error (PyExc.overflowError "float too large to pack with f format")
  else
    Except.error (PyExc.attributeError "errorFlags")

/-- `decode_message` (lines 56–79).  The length guard compares against
this module's stale `CRUMBS_MESSAGE_SIZE = 27` and returns `None`
(`Except.ok none`) for shorter buffers.  Past the guard,
`struct.unpack("<BB6fB", buffer[:27])` succeeds on the 27-byte prefix,
and then `CRUMBSMessage(typeID=…, commandType=…, data=…,
errorFlags=unpacked[8])` raises `TypeError`: the packaged dataclass
(attributes `PkgMsg.CRUMBSMessage.attrs`) accepts no `errorFlags`
keyword.  `except struct.error` does not catch `TypeError`, so the
exception escapes; no buffer content is ever inspected beyond its
length, and no CRC is computed anywhere in the module. -/
def decode_message (buffer : List Nat) :
    Except PyExc (Option PkgMsg.CRUMBSMessage) :=
  if buffer.length < CRUMBS_MESSAGE_SIZE then
    Except.ok none
  else if PkgMsg.CRUMBSMessage.attrs.contains "errorFlags" then
    -- not reached: the keyword the constructor call supplies does not exist
    Except.ok none
  else
    Except.error (PyExc.typeError "unexpected keyword argument errorFlags")

/-- `send_message` (lines 81–110).  `encoded = self.encode_message(message)`
runs before the `try` block, so an exception it raises escapes the
method; a length other than 27 logs the size mismatch and returns
`False`; otherwise `i2c_msg.write(target_address, encoded)` is built and,
only when `self.bus is not None`, handed to the driver by
`self.bus.i2c_rdwr(write)` (recorded as a `BusOp.write`), returning
`True`; with `self.bus` still `None` the method logs that the bus is not
open and returns `False` without any transaction. -/
def CRUMBS.send_message (self : CRUMBS) (message : PkgMsg.CRUMBSMessage)
    (target_address : Int) : Except PyExc Bool × List BusOp :=
  match encode_message message with
  | Except.error e => (Except.error e, [])
  | Except.ok encoded =>
    if encoded.length ≠ CRUMBS_MESSAGE_SIZE then (Except.ok false, [])
    else
      match self.bus with
      | some _ => (Except.ok true, [BusOp.write target_address encoded])
      | none => (Except.ok false, [])

/-- `request_message` (lines 112–134).  The whole body sits in
`try … except Exception: return None`.  With `self.bus` `None` it logs
that the bus is not open and returns `None` with no transaction.  With
the bus open it hands `i2c_msg.read(target_address, 27)` to the driver
(recorded as a `BusOp.read`; the mock returns a zero-filled 27-byte
buffer) and returns `self.decode_message(buffer)` — whose `TypeError`
the blanket `except Exception` swallows into `None`. -/
def CRUMBS.request_message (self : CRUMBS) (target_address : Int) :
    Option PkgMsg.CRUMBSMessage × List BusOp :=
  match self.bus with
  | some _ =>
    let buffer := List.replicate CRUMBS_MESSAGE_SIZE 0
    match decode_message buffer with
    | Except.ok r => (r, [BusOp.read target_address CRUMBS_MESSAGE_SIZE])
    | Except.error _ => (none, [BusOp.read target_address CRUMBS_MESSAGE_SIZE])
  | none => (none, [])

/-- `close` (lines 136–142): `if self.bus: self.bus.close()`.  The driver
handle is closed (recorded as `BusOp.closeHandle`) whenever `self.bus` is
set — and `self.bus` is never reset to `None`, so the state returned is
the unchanged `self`. -/
def CRUMBS.close (self : CRUMBS) : CRUMBS × List BusOp :=
  match self.bus with
  | some _ => (self, [BusOp.closeHandle])
  | none => (self, [])

end PkgBus

namespace RootMsg

/-! ## `CRUMBSMessage.py` at repository root — the legacy message model -/

/-- The legacy `CRUMBSMessage` dataclass (lines 5–24): `typeID`,
`commandType`, `data` (6 floats by default) and `errorFlags`; no
`__post_init__`, so construction stores the fields as given. -/
structure CRUMBSMessage where
  typeID : Int
  commandType : Int
  data : List PyFloat
  errorFlags : Int
deriving DecidableEq

end RootMsg

namespace RootBus

/-! ## `CRUMBS.py` at repository root — the legacy codec and transport -/

/-- `CRUMBS_MESSAGE_SIZE` (line 12): `27  # 1 + 1 + (6 * 4) + 1`. -/
def CRUMBS_MESSAGE_SIZE : Nat := 27

/-- The exit a `send_message` call takes, observable through its log
calls: the early return after the size check, the successful send, or
the `except Exception` branch. -/
inductive SendExit where
  | sizeMismatch
  | sent
  | failed
deriving DecidableEq

/-- The legacy `CRUMBS` transport state (lines 20–26). -/
structure CRUMBS where
  bus_number : Int
  bus : Option Unit
deriving DecidableEq

/-- `CRUMBS.__init__` (lines 20–26). -/
def CRUMBS.construct (bus_number : Int) : CRUMBS :=
  { bus_number := bus_number, bus := none }

/-- `begin` (lines 28–33). -/
def CRUMBS.begin (self : CRUMBS) : CRUMBS :=
  { self with bus := some () }

/-- `encode_message` (lines 35–54):
`struct.pack("<BB6fB", message.typeID, message.commandType,
*message.data, message.errorFlags)` under `try … except struct.error:
return bytes()`.  Here the legacy message model does declare
`errorFlags`, so the arguments evaluate; `struct.error` (wrong item
count — `data` not exactly 6 floats — or a `B` argument out of range) is
caught and turned into the empty byte string, while an `OverflowError`
from packing a float beyond binary32 range is not caught and escapes. -/
def encode_message (message : RootMsg.CRUMBSMessage) : Except PyExc (List Nat) :=
  match structPack_BB6fB message.typeID message.commandType message.data
      message.errorFlags with
  | Except.ok encoded => Except.ok encoded
  | Except.error PackExc.structError => Except.ok []
  | Except.error PackExc.overflowError =>
      Except.error (PyExc.overflowError "float too large to pack with f format")

/-- `send_message` (lines 81–101).  `encoded = self.encode_message(message)`
runs first, outside the `try`, so an exception it raises escapes.  A
length other than 27 logs the size mismatch and returns (`sizeMismatch`)
with no transaction.  Otherwise, inside `try`, `self.bus.i2c_rdwr(write)`
either delivers the write to the driver (`sent`) or — when `self.bus` is
`None` — raises `AttributeError` on the `None` handle, which the blanket
`except Exception` turns into the logged failure return (`failed`),
again with no transaction. -/
def CRUMBS.send_message (self : CRUMBS) (message : RootMsg.CRUMBSMessage)
    (target_address : Int) : Except PyExc (SendExit × List BusOp) :=
  match encode_message message with
  | Except.error e => Except.error e
  | Except.ok encoded =>
    if encoded.length ≠ CRUMBS_MESSAGE_SIZE then
      Except.ok (SendExit.sizeMismatch, [])
    else
      match self.bus with
      | some _ => Except.ok (SendExit.sent, [BusOp.write target_address encoded])
      | none => Except.ok (SendExit.failed, [])

/-- `close` (lines 121–127): `if self.bus: self.bus.close()`, with
`self.bus` never reset. -/
def CRUMBS.close (self : CRUMBS) : CRUMBS × List BusOp :=
  match self.bus with
  | some _ => (self, [BusOp.closeHandle])
  | none => (self, [])

end RootBus

/-! ## The CRC-8 engine of the spec, and concrete inputs -/

/-- One shift round of the CRC-8 register. -/
def crc8_round (acc : Nat) : Nat :=
  if 128 ≤ acc then ((acc * 2) ^^^ 7) % 256 else acc * 2

/-- Absorb one byte: xor into the register, eight shift rounds. -/
def crc8_update (crc b : Nat) : Nat :=
  (List.range 8).foldl (fun acc _ => crc8_round acc) ((crc ^^^ b) % 256)

/-- Modelled from the spec: the CRC-8 engine of §4.1 (width 8, poly 0x07,
init 0x00, no input/output reflection, no final xor) that the spec's
Frame Codec invokes over bytes 0–29 of a frame.  No runtime CRC
implementation exists in the Python sources — the spec itself notes the
protocol modules "omit CRC computation", and the repository only ships
an offline generator for a C table (`scripts/generate_crc8_c99.py`).
This bitwise reference form satisfies the spec's check value
(`crc8 "123456789" = 0xF4`, proved below). -/
def crc8 (bytes : List Nat) : Nat := bytes.foldl crc8_update 0

/-- The spec's §8 concrete scenario message, built through the packaged
constructor: `CRUMBSMessage(typeID=1, commandType=2,
data=[75.0, 1.0, 0.0, 65.0, 2.0, 7.0, 3.14], crc8=0)` (each float given
by its binary32 image). -/
def msgSpecScenario : PkgMsg.CRUMBSMessage :=
  PkgMsg.CRUMBSMessage.make 1 2
    [⟨0x42960000, false⟩, ⟨0x3F800000, false⟩, ⟨0, false⟩, ⟨0x42820000, false⟩,
     ⟨0x40000000, false⟩, ⟨0x40E00000, false⟩, ⟨0x4048F5C3, false⟩] 0

/-- `CRUMBSMessage(typeID=3, commandType=4, data=[1.0]*7, crc8=0)`. -/
def msgRoundTrip : PkgMsg.CRUMBSMessage :=
  PkgMsg.CRUMBSMessage.make 3 4 (List.replicate 7 ⟨0x3F800000, false⟩) 0

/-- A 31-byte frame whose stored checksum byte (byte 30, `0xFF`) differs
from the CRC-8 of its first 30 bytes (which is `0x00`). -/
def badChecksumFrame : List Nat := List.replicate 30 0 ++ [255]

/-- A 27-byte buffer — shorter than the declared 31-byte message size. -/
def shortBuffer27 : List Nat := List.replicate 27 0

/-- A transport that was never opened: `CRUMBS(1)` with `begin()` never called. -/
def closedTransport : PkgBus.CRUMBS := PkgBus.CRUMBS.construct 1

/-- A transport that has been opened: `CRUMBS(1)` after `begin()`. -/
def openTransport : PkgBus.CRUMBS := (PkgBus.CRUMBS.construct 1).begin

/-- A legacy message whose `data` list is empty: the `<BB6fB` pack sees
3 items instead of 9 and raises `struct.error`, so `encode_message`
returns the empty byte string. -/
def legacyMsgNoData : RootMsg.CRUMBSMessage :=
  { typeID := 1, commandType := 2, data := [], errorFlags := 0 }

/-- A legacy message of 6 floats whose first float is a finite double
beyond binary32 range (for example `1e300`): `struct.pack("<f", ·)`
raises `OverflowError` for it. -/
def legacyMsgOverflow : RootMsg.CRUMBSMessage :=
  { typeID := 1, commandType := 2,
    data := ⟨0, true⟩ :: List.replicate 5 PyFloat.zero, errorFlags := 0 }

/-! ## Supporting lemmas -/

set_option maxRecDepth 8000 in
/-- The spec's interoperability check value for the CRC-8 engine: the
bytes of `"123456789"` hash to `0xF4`. -/
theorem crc8_check_value : crc8 [49, 50, 51, 52, 53, 54, 55, 56, 57] = 0xF4 := by
  decide

theorem nat_land_255_lt (x : Nat) : Nat.land x 255 < 256 := by
  have h := Nat.and_lt_two_pow x (y := 255) (n := 8) (by norm_num)
  norm_num at h
  exact h

theorem nat_ldiff_255_lt (n : Nat) : Nat.ldiff 255 n < 256 := by
  by_contra h
  push_neg at h
  obtain ⟨i, hi, hbit⟩ :=
    Nat.ge_two_pow_implies_high_bit_true (n := 8) (by norm_num; exact h)
  rw [Nat.testBit_ldiff] at hbit
  have h255 : Nat.testBit 255 i = false :=
    Nat.testBit_lt_two_pow (Nat.lt_of_lt_of_le (by norm_num)
      (Nat.pow_le_pow_right (by norm_num) hi))
  rw [h255] at hbit
  simp at hbit

/-- Python `k & 0xFF` on an arbitrary (two's-complement) integer lands
in `0–255`. -/
theorem int_land_255_bounds (k : Int) :
    0 ≤ Int.land k 255 ∧ Int.land k 255 < 256 := by
  cases k with
  | ofNat n =>
      refine ⟨Int.ofNat_nonneg _, ?_⟩
      show Int.ofNat (Nat.land n 255) < Int.ofNat 256
      exact Int.ofNat_lt.mpr (nat_land_255_lt n)
  | negSucc n =>
      refine ⟨Int.ofNat_nonneg _, ?_⟩
      show Int.ofNat (Nat.ldiff 255 n) < Int.ofNat 256
      exact Int.ofNat_lt.mpr (nat_ldiff_255_lt n)

/-- `6f` packing of overflow-free floats succeeds and yields 4 bytes per
float. -/
theorem packFloats_ok_of_no_overflow (data : List PyFloat)
    (h : ∀ x ∈ data, x.overflows = false) :
    ∃ bs, packFloats data = Except.ok bs ∧ bs.length = 4 * data.length := by
  induction data with
  | nil => exact ⟨[], rfl, rfl⟩
  | cons x xs ih =>
    have hx : x.overflows = false := h x (by simp)
    obtain ⟨bs, hbs, hlen⟩ := ih (fun y hy => h y (by simp [hy]))
    refine ⟨[x.bits % 256, x.bits / 256 % 256, x.bits / 65536 % 256,
      x.bits / 16777216 % 256] ++ bs, ?_, ?_⟩
    · simp [packFloats, packF32LE, hx, hbs]
    · simp [hlen]
      omega

/-- `struct.pack("<BB6fB", …)` on overflow-free floats either raises
`struct.error` or returns exactly 27 bytes. -/
theorem structPack_BB6fB_no_overflow (t c : Int) (data : List PyFloat) (e : Int)
    (h : ∀ x ∈ data, x.overflows = false) :
    structPack_BB6fB t c data e = Except.error PackExc.structError
    ∨ ∃ bs, structPack_BB6fB t c data e = Except.ok bs ∧ bs.length = 27 := by
  unfold structPack_BB6fB
  by_cases h6 : data.length = 6
  · rw [if_pos h6]
    cases hpt : packB t with
    | none => exact Or.inl rfl
    | some tb =>
      cases hpc : packB c with
      | none => exact Or.inl rfl
      | some cb =>
        obtain ⟨bs, hbs, hlen⟩ := packFloats_ok_of_no_overflow data h
        rw [hbs]
        cases hpe : packB e with
        | none => exact Or.inl rfl
        | some eb =>
          refine Or.inr ⟨tb :: cb :: (bs ++ [eb]), rfl, ?_⟩
          simp [hlen, h6]
  · rw [if_neg h6]
    exact Or.inl rfl

/-! ## Claims -/

/-- C1.  The claim says `encode` succeeds on every well-formed Message
and returns the 31-byte little-endian frame with the CRC-8 of bytes 0–29
at byte 30.  The packaged code violates it: `encode_message` evaluates
`message.errorFlags`, an attribute the packaged `CRUMBSMessage` does not
declare, and raises `AttributeError` — uncaught by `except struct.error`
— on every message, the spec's own §8 scenario message included; no
31-byte CRC frame is ever produced (the pack it attempts is the legacy
27-byte `<BB6fB` layout with no CRC anywhere). -/
theorem c1_encode_raises_on_spec_scenario :
    PkgBus.encode_message msgSpecScenario
      = Except.error (PyExc.attributeError "errorFlags") := rfl

/-- C2.  The claim says `decode(encode(m))` returns `m`'s fields for
every valid Message `m`.  On the packaged code the round trip cannot
even start: `encode_message` raises `AttributeError` (missing
`errorFlags`) instead of returning bytes, here evaluated on the message
`CRUMBSMessage(typeID=3, commandType=4, data=[1.0]*7, crc8=0)`, so there
is no encoding to decode. -/
theorem c2_roundtrip_has_no_encoding :
    PkgBus.encode_message msgRoundTrip
      = Except.error (PyExc.attributeError "errorFlags")
    ∧ ∀ encoded : List Nat,
        PkgBus.encode_message msgRoundTrip ≠ Except.ok encoded := by
  refine ⟨rfl, fun encoded h => ?_⟩
  rw [show PkgBus.encode_message msgRoundTrip
      = Except.error (PyExc.attributeError "errorFlags") from rfl] at h
  exact Except.noConfusion h

set_option maxRecDepth 8000 in
/-- C3.  The claim says `decode` recomputes the CRC-8 over bytes 0–29
and rejects any frame whose byte 30 disagrees with it
(`ChecksumMismatch`).  The packaged `decode_message` computes no CRC at
all: on a 31-byte frame whose stored checksum byte `0xFF` differs from
the CRC-8 of its first 30 bytes (`0x00`), it passes its (stale, 27-byte)
length guard and then raises `TypeError` — the legacy `errorFlags`
keyword it hands the packaged constructor — so no checksum comparison
and no `ChecksumMismatch` rejection ever happens. -/
theorem c3_no_crc_validation_in_decode :
    crc8 (List.replicate 30 0) = 0
    ∧ badChecksumFrame = List.replicate 30 0 ++ [255]
    ∧ PkgBus.decode_message badChecksumFrame
        = Except.error (PyExc.typeError "unexpected keyword argument errorFlags") := by
  refine ⟨?_, rfl, rfl⟩
  decide

/-- C4.  The claim says every buffer shorter than 31 bytes fails with
`FrameTooShort`.  The packaged length guard compares against the stale
`CRUMBS_MESSAGE_SIZE = 27` from `src/pyCRUMBS/CRUMBS.py`, contradicting
the 31 declared in `src/pyCRUMBS/CRUMBSMessage.py`: a 27-byte zero
buffer — shorter than 31 — passes the guard and `decode_message` then
raises `TypeError` instead of returning the too-short failure (`None`,
i.e. `Except.ok none`). -/
theorem c4_short_buffer_passes_guard :
    shortBuffer27.length < PkgMsg.CRUMBS_MESSAGE_SIZE
    ∧ PkgBus.decode_message shortBuffer27
        = Except.error (PyExc.typeError "unexpected keyword argument errorFlags")
    ∧ PkgBus.decode_message shortBuffer27 ≠ Except.ok none := by
  refine ⟨by decide, rfl, fun h => ?_⟩
  rw [show PkgBus.decode_message shortBuffer27
      = Except.error (PyExc.typeError "unexpected keyword argument errorFlags")
      from rfl] at h
  exact Except.noConfusion h

/-- C5.  Construction normalizes `data` to length exactly 7: the given
values survive as a prefix (a shorter list is padded with `0.0`, a
longer list is cut to its first 7 entries), and no branch raises.  For
every float list, the constructed message's `data` equals the first 7
given values followed by `7 - length` zeros, and its length is 7. -/
theorem c5_make_normalizes_data (typeID commandType crc8 : Int)
    (data : List PyFloat) :
    (PkgMsg.CRUMBSMessage.make typeID commandType data crc8).data
      = data.take PkgMsg.CRUMBS_DATA_LENGTH
        ++ List.replicate (PkgMsg.CRUMBS_DATA_LENGTH - data.length) PyFloat.zero
    ∧ (PkgMsg.CRUMBSMessage.make typeID commandType data crc8).data.length
        = PkgMsg.CRUMBS_DATA_LENGTH := by
  have hdata : (PkgMsg.CRUMBSMessage.make typeID commandType data crc8).data
      = data.take PkgMsg.CRUMBS_DATA_LENGTH
        ++ List.replicate (PkgMsg.CRUMBS_DATA_LENGTH - data.length) PyFloat.zero := by
    show (if data.length ≠ PkgMsg.CRUMBS_DATA_LENGTH then
        if data.length < PkgMsg.CRUMBS_DATA_LENGTH then
          data ++ List.replicate (PkgMsg.CRUMBS_DATA_LENGTH - data.length) PyFloat.zero
        else data.take PkgMsg.CRUMBS_DATA_LENGTH
      else data) = _
    by_cases h7 : data.length = PkgMsg.CRUMBS_DATA_LENGTH
    · rw [if_neg (by simp [h7])]
      rw [List.take_of_length_le (le_of_eq h7), h7]
      simp
    · rw [if_pos h7]
      by_cases hlt : data.length < PkgMsg.CRUMBS_DATA_LENGTH
      · rw [if_pos hlt, List.take_of_length_le (le_of_lt hlt)]
      · rw [if_neg hlt]
        have : PkgMsg.CRUMBS_DATA_LENGTH - data.length = 0 := by omega
        rw [this]
        simp
  refine ⟨hdata, ?_⟩
  rw [hdata]
  simp [List.length_take, List.length_replicate]
  omega

/-- C6.  The claim says `send` and `request` on a Closed transport fail
with `NotOpen` and issue zero bus transactions.  `request_message` does
behave that way (Python `None` after the bus-is-open check, no
transaction recorded), but `send_message` never reaches its bus check:
`encode_message` raises `AttributeError` (missing `errorFlags`) first,
outside the `try` block, so the call fails with `AttributeError` rather
than the not-open failure — though still with zero transactions. -/
theorem c6_closed_transport_send_raises :
    PkgBus.CRUMBS.send_message closedTransport msgSpecScenario 16
      = (Except.error (PyExc.attributeError "errorFlags"), [])
    ∧ PkgBus.CRUMBS.request_message closedTransport 16 = (none, [])
    ∧ closedTransport.bus = none := ⟨rfl, rfl, rfl⟩

/-- C7.  The claim says a second `close` is a no-op and the bus handle
is released at most once.  The code's `close` is `if self.bus:
self.bus.close()` and never resets `self.bus`, so on a transport that
was opened, the first close releases the handle and the second close —
finding `self.bus` still set — releases it again: two `closeHandle`
transactions reach the driver. -/
theorem c7_second_close_releases_again :
    (openTransport.close).2 = [BusOp.closeHandle]
    ∧ ((openTransport.close).1.close).2 = [BusOp.closeHandle]
    ∧ (openTransport.close).1.bus = some () := ⟨rfl, rfl, rfl⟩

/-- C8.  The claim says addresses outside `0x00–0x7F` are rejected with
`InvalidAddress` before any bus I/O.  No address validation exists in
the code: `request_message` on an open transport with address `0x80`
delivers the addressed 27-byte read to the bus driver (one recorded
transaction) instead of rejecting the call. -/
theorem c8_out_of_range_address_reaches_bus :
    (PkgBus.CRUMBS.request_message openTransport 128).2
      = [BusOp.read 128 PkgBus.CRUMBS_MESSAGE_SIZE]
    ∧ (128 : Int) > 0x7F := ⟨rfl, by decide⟩

/-- C9.  Construction masks the supplied `crc8` to its low 8 bits
(`self.crc8 &= 0xFF`): for every integer `k`, the stored field equals
`k & 255` (two's-complement bitwise and) and lies in `0–255`. -/
theorem c9_crc8_masked_to_byte (typeID commandType k : Int)
    (data : List PyFloat) :
    (PkgMsg.CRUMBSMessage.make typeID commandType data k).crc8 = Int.land k 255
    ∧ 0 ≤ (PkgMsg.CRUMBSMessage.make typeID commandType data k).crc8
    ∧ (PkgMsg.CRUMBSMessage.make typeID commandType data k).crc8 < 256 :=
  ⟨rfl, (int_land_255_bounds k).1, (int_land_255_bounds k).2⟩

/-- C10, counterexample.  The claim says the legacy `encode_message`
always returns either a complete 27-byte frame or an empty byte string.
Not quite: on a message whose data holds a finite double beyond binary32
range (for example `1e300`), `struct.pack` raises `OverflowError`, which
is not a `struct.error` and so escapes the `except struct.error:
return bytes()` handler — `encode_message` raises and returns nothing at
all. -/
theorem c10_counterexample_overflow_escapes :
    RootBus.encode_message legacyMsgOverflow
      = Except.error (PyExc.overflowError "float too large to pack with f format")
    ∧ ¬(RootBus.encode_message legacyMsgOverflow = Except.ok []
        ∨ ∃ encoded, RootBus.encode_message legacyMsgOverflow = Except.ok encoded
            ∧ encoded.length = RootBus.CRUMBS_MESSAGE_SIZE) := by
  have heval : RootBus.encode_message legacyMsgOverflow
      = Except.error (PyExc.overflowError "float too large to pack with f format") := rfl
  refine ⟨heval, fun h => ?_⟩
  rcases h with h | ⟨encoded, h, _⟩ <;>
    · rw [heval] at h
      exact Except.noConfusion h

/-- C10, amended.  For every message whose data floats are all within
binary32 range (so no `struct.pack` item raises `OverflowError`), the
legacy `encode_message` returns either the empty byte string (the
`except struct.error` path) or a complete 27-byte frame, never a partial
one; and whenever the encoded result's length differs from the fixed
message size, `send_message` takes the logged size-mismatch return and
issues zero bus writes. -/
theorem c10_encode_all_or_nothing (self : RootBus.CRUMBS)
    (message : RootMsg.CRUMBSMessage) (target_address : Int)
    (hof : ∀ x ∈ message.data, x.overflows = false) :
    (RootBus.encode_message message = Except.ok []
      ∨ ∃ encoded, RootBus.encode_message message = Except.ok encoded
          ∧ encoded.length = RootBus.CRUMBS_MESSAGE_SIZE)
    ∧ ∀ encoded, RootBus.encode_message message = Except.ok encoded →
        encoded.length ≠ RootBus.CRUMBS_MESSAGE_SIZE →
        RootBus.CRUMBS.send_message self message target_address
          = Except.ok (RootBus.SendExit.sizeMismatch, []) := by
  constructor
  · rcases structPack_BB6fB_no_overflow message.typeID message.commandType
        message.data message.errorFlags hof with h | ⟨bs, hbs, hlen⟩
    · left
      unfold RootBus.encode_message
      rw [h]
    · right
      refine ⟨bs, ?_, hlen⟩
      unfold RootBus.encode_message
      rw [hbs]
  · intro encoded henc hne
    unfold RootBus.CRUMBS.send_message
    rw [henc]
    simp only []
    rw [if_pos hne]

/-- C10, witness: the amended statement at the concrete legacy message
with an empty data list — `struct.pack` sees 3 items instead of 9,
raises `struct.error`, `encode_message` returns the empty byte string
(length 0 ≠ 27), and `send_message` returns the size-mismatch failure
with zero bus writes. -/
theorem c10_encode_all_or_nothing_witness :
    (RootBus.encode_message legacyMsgNoData = Except.ok []
      ∨ ∃ encoded, RootBus.encode_message legacyMsgNoData = Except.ok encoded
          ∧ encoded.length = RootBus.CRUMBS_MESSAGE_SIZE)
    ∧ ∀ encoded, RootBus.encode_message legacyMsgNoData = Except.ok encoded →
        encoded.length ≠ RootBus.CRUMBS_MESSAGE_SIZE →
        RootBus.CRUMBS.send_message (RootBus.CRUMBS.construct 1) legacyMsgNoData 8
          = Except.ok (RootBus.SendExit.sizeMismatch, []) :=
  c10_encode_all_or_nothing (RootBus.CRUMBS.construct 1) legacyMsgNoData 8
    (by decide)
